import Mathlib

/-!
Verification development for the `common_helper` repository.

The repository has two Python modules:

* `src/common_helper/matplotlib_pickle.py`: `save_figure_pickle` /
  `load_figure_pickle`, a thin persistence adapter around the generic
  object pickler (`pickle.dump` / `pickle.load`), with `~`-expansion of
  the given path.
* `src/common_helper/matplotlib_helper.py`: the same `save_figure_pickle`,
  a `load_figure_pickle` variant that additionally re-registers the loaded
  figure with pyplot's active-figure registry (`_pylab_helpers.Gcf`) on a
  best-effort basis, and `extract_plot_data_points`, which walks a figure's
  axes and extracts line / scatter / bar series into a plain snapshot.

Shallow embedding conventions:

* Paths are lists of characters (`PyPath`); `Path(p).expanduser()` is
  modelled for the leading `~` / `~/` forms that the code's path handling
  addresses.
* The filesystem is a map from paths to pickled files.  The generic object
  pickler is the external serialization mechanism (spec section 6: an
  opaque object-graph serializer supplied by the environment); its
  observable contract is modelled by storing the object itself, together
  with the protocol number the adapter chose, as the file's content.
* Numeric values carried by matplotlib artists are modelled as exact
  rationals; Python's `float(...)` coercion on values that are already
  64-bit floats is the identity, modelled by `pyFloat`.
* Attribute lookups that the code itself guards (`hasattr`,
  `getattr(obj, name, default)`) are modelled by explicit `has...` flags
  on the corresponding object models.
-/

/-- A filesystem path, as a list of characters. -/
abbrev PyPath := List Char

/-- Python's `Path(p).expanduser()` for the forms the adapter relies on: a
path that is exactly `~`, or starts with `~/`, has the leading `~` replaced
by the user's home directory; any other path is returned unchanged. -/
def expanduser (home p : PyPath) : PyPath :=
  if p = ['~'] then home
  else if p.take 2 = ['~', '/'] then home ++ p.drop 1
  else p

/-- Python's `pickle.HIGHEST_PROTOCOL` (protocol 5 on current CPython). -/
def pickle_HIGHEST_PROTOCOL : Nat := 5

/-- The content of a file written by `pickle.dump(fig, f, protocol=...)`:
the serialized object graph together with the protocol it was written at.
The generic pickler's observable contract (deserialization returns the
serialized object graph) is modelled by keeping the payload itself. -/
structure PickledFile (α : Type) where
  protocol : Nat
  payload : α
deriving Repr, DecidableEq

/-- The filesystem as seen by the persistence adapter: which pickled file,
if any, each path holds. -/
def FileSystem (α : Type) : Type := PyPath → Option (PickledFile α)

namespace MatplotlibPickle

/-- Embedding of `matplotlib_pickle.save_figure_pickle`: expand the user
home in `path`, resolve the protocol default to `pickle.HIGHEST_PROTOCOL`,
write the pickled figure at the expanded path, and return the written path.
`mkdir` requests creation of parent directories; directory state is not
tracked (the claims quantify over writable paths), so it has no observable
effect in the model. -/
def save_figure_pickle {α : Type} (home : PyPath) (fig : α) (path : PyPath)
    (protocol : Option Nat) (mkdir : Bool) (fs : FileSystem α) :
    PyPath × FileSystem α :=
  let out_path := expanduser home path
  let prot := protocol.getD pickle_HIGHEST_PROTOCOL
  let _ := mkdir
  (out_path, fun q => if q = out_path then some ⟨prot, fig⟩ else fs q)

/-- Embedding of `matplotlib_pickle.load_figure_pickle`: expand the user
home in `path`, read the file there and return the deserialized object;
`none` models the `IOError` raised for a missing file. -/
def load_figure_pickle {α : Type} (home : PyPath) (fs : FileSystem α)
    (path : PyPath) : Option α :=
  (fs (expanduser home path)).map PickledFile.payload

end MatplotlibPickle

theorem expanduser_fix (home l : PyPath) (h : l.head? ≠ some '~') :
    expanduser home l = l := by
  unfold expanduser
  rw [if_neg, if_neg]
  · intro hc
    cases l with
    | nil => simp [List.take] at hc
    | cons a t =>
      apply h
      have : a = '~' := by
        have := congrArg (fun x => x.head?) hc
        simpa using this
      simp [this]
  · intro hc
    apply h
    subst hc
    rfl

theorem expanduser_head (home p : PyPath) (hh : home.head? ≠ some '~') :
    (expanduser home p).head? ≠ some '~' ∨ expanduser home p = p := by
  unfold expanduser
  by_cases h1 : p = ['~']
  · simp only [h1, if_pos rfl]
    exact Or.inl hh
  · rw [if_neg h1]
    by_cases h2 : p.take 2 = ['~', '/']
    · rw [if_pos h2]
      left
      obtain ⟨u, rfl⟩ : ∃ u, p = '~' :: '/' :: u := by
        cases p with
        | nil => simp [List.take] at h2
        | cons a t =>
          cases t with
          | nil => simp [List.take] at h2
          | cons b u =>
            simp [List.take] at h2
            exact ⟨u, by simp [h2.1, h2.2]⟩
      cases home with
      | nil =>
        intro hc
        simp [List.drop] at hc
      | cons c cs =>
        intro hc
        apply hh
        simp at hc ⊢
        exact hc
    · rw [if_neg h2]
      exact Or.inr rfl

theorem expanduser_idem (home p : PyPath) (hh : home.head? ≠ some '~') :
    expanduser home (expanduser home p) = expanduser home p := by
  rcases expanduser_head home p hh with h | h
  · exact expanduser_fix home _ h
  · rw [h]
    exact h

/-!
Data model for `extract_plot_data_points` (matplotlib_helper.py).

Each structure models the accessors the extractor reads from the
corresponding matplotlib object.  Numeric data is kept as exact rationals;
`pyFloat` stands for Python's `float(...)` coercion, which is the identity
on values that are already 64-bit floats.
-/

/-- Python's `float(v)` on a value that is already a 64-bit float: the
identity coercion. -/
def pyFloat (q : ℚ) : ℚ := q

/-- A `Line2D` artist as read by the extractor: the values returned by
`get_xdata()`, `get_ydata()` (where `none` models a `None` return handled
by `_to_float_list`) and `get_label()`. -/
structure Line2D where
  xdata : Option (List ℚ)
  ydata : Option (List ℚ)
  label : Option String
deriving Repr, DecidableEq

/-- A collection in `ax.collections` as read by the extractor: its concrete
type's `__name__` and `__module__` (used by `_is_matplotlib_type`), the
value of `get_offsets()` (already converted to pairs), whether a
`get_sizes` accessor exists and what it returns, and whether a `get_label`
accessor exists and what it returns. -/
structure Collection where
  typeName : String
  typeModule : String
  offsets : List (ℚ × ℚ)
  hasGetSizes : Bool
  sizesVal : Option (List ℚ)
  hasGetLabel : Bool
  labelVal : Option String
deriving Repr, DecidableEq

/-- A rectangular patch of a bar container: `get_x()`, `get_y()`,
`get_width()`, `get_height()`. -/
structure Rect where
  x : ℚ
  y : ℚ
  width : ℚ
  height : ℚ
deriving Repr, DecidableEq

/-- A container in `ax.containers` as read by the extractor. -/
structure BarContainer where
  typeName : String
  typeModule : String
  patches : List Rect
  hasGetLabel : Bool
  labelVal : Option String
deriving Repr, DecidableEq

/-- An axes object: `get_lines()`, `.collections`, `.containers`,
`get_title()`, `get_xlabel()`, `get_ylabel()`. -/
structure MplAxes where
  lines : List Line2D
  collections : List Collection
  containers : List BarContainer
  title : String
  xlabel : String
  ylabel : String
deriving Repr, DecidableEq

/-- A figure object: `get_axes()`. -/
structure MplFigure where
  axes : List MplAxes
deriving Repr, DecidableEq

/-- One extracted series of the snapshot: the `kind` discriminator of the
Python TypedDicts (`_LineSeries`, `_ScatterSeries`, `_BarSeries`) is the
constructor. -/
inductive Series where
  | line (label : Option String) (x : List ℚ) (y : List ℚ)
  | scatter (label : Option String) (xy : List (ℚ × ℚ)) (sizes : Option (List ℚ))
  | bar (label : Option String) (x : List ℚ) (height : List ℚ)
      (width : Option (List ℚ)) (bottom : Option (List ℚ))
deriving Repr, DecidableEq

/-- The `label` field of a series, common to the three kinds. -/
def Series.labelOf : Series → Option String
  | Series.line lab _ _ => lab
  | Series.scatter lab _ _ => lab
  | Series.bar lab _ _ _ _ => lab

/-- One per-axes record of the snapshot (`_AxesPlotData`). -/
structure AxesPlotData where
  index : Nat
  title : String
  xlabel : String
  ylabel : String
  series : List Series
deriving Repr, DecidableEq

/-- The snapshot (`FigurePlotData`). -/
structure FigurePlotData where
  axes : List AxesPlotData
deriving Repr, DecidableEq

/-- Embedding of the inner helper `_is_matplotlib_type`: best-effort type
check by the type's `__name__` and `__module__`, without importing
matplotlib types. -/
def _is_matplotlib_type (typeName typeModule class_name module_start : String) :
    Bool :=
  typeName == class_name && typeModule.startsWith module_start

/-- Embedding of the inner helper `_to_float_list`: `None` becomes the
empty list; otherwise the array-like value is turned into a plain list and
every element coerced with `float`. -/
def _to_float_list : Option (List ℚ) → List ℚ
  | none => []
  | some vs => vs.map pyFloat

/-- Embedding of the inner helper `_clean_label`: `None` stays `None`, and
a label starting with an underscore (matplotlib's internal placeholder
labels such as `_child0`) is normalized to `None`. -/
def _clean_label : Option String → Option String
  | none => none
  | some lab => if lab.startsWith "_" then none else some lab

/-- Length of the raw (pre-coercion) data value: 0 for `None`. -/
def optDataLen : Option (List ℚ) → Nat
  | none => 0
  | some vs => vs.length

theorem to_float_list_length (o : Option (List ℚ)) :
    (_to_float_list o).length = optDataLen o := by
  cases o <;> simp [_to_float_list, optDataLen]

/-- The line branch of the extractor's loop: one `_LineSeries` built from a
`Line2D` artist. -/
def extractLine (l : Line2D) : Series :=
  Series.line (_clean_label l.label) (_to_float_list l.xdata)
    (_to_float_list l.ydata)

/-- The collection filter of the scatter branch:
`_is_matplotlib_type(col, class_name="PathCollection", module_prefix="matplotlib.")`. -/
def isPathCollection (c : Collection) : Bool :=
  _is_matplotlib_type c.typeName c.typeModule "PathCollection" "matplotlib."

/-- The value of `getattr(col, "get_label", lambda: None)()`: the label
accessor's result if the accessor exists, `None` otherwise. -/
def collectionLabelRaw (c : Collection) : Option String :=
  if c.hasGetLabel then c.labelVal else none

/-- The `sizes_raw` local of the scatter branch: `None`, overwritten with
`col.get_sizes()` when the accessor exists. -/
def collectionSizesRaw (c : Collection) : Option (List ℚ) :=
  if c.hasGetSizes then c.sizesVal else none

/-- The `sizes` local of the scatter branch: stays `None` unless
`sizes_raw` is not `None`, in which case it is coerced with
`_to_float_list`. -/
def scatterSizes (c : Collection) : Option (List ℚ) :=
  match collectionSizesRaw c with
  | none => none
  | some vs => some (_to_float_list (some vs))

/-- The scatter branch of the extractor's loop: one `_ScatterSeries` built
from a `PathCollection`; the offsets are converted to a plain list of
float pairs. -/
def extractScatter (c : Collection) : Series :=
  Series.scatter (_clean_label (collectionLabelRaw c))
    (c.offsets.map (fun q => (pyFloat q.1, pyFloat q.2)))
    (scatterSizes c)

/-- The container filter of the bar branch:
`_is_matplotlib_type(container, class_name="BarContainer", module_prefix="matplotlib.")`. -/
def isBarContainer (c : BarContainer) : Bool :=
  _is_matplotlib_type c.typeName c.typeModule "BarContainer" "matplotlib."

/-- The value of `getattr(container, "get_label", lambda: None)()`. -/
def containerLabelRaw (c : BarContainer) : Option String :=
  if c.hasGetLabel then c.labelVal else none

/-- The four accumulator lists of the bar branch (`x_centers`, `heights`,
`widths`, `bottoms`), built by the loop over `container.patches` in patch
order. -/
def barAccum (ps : List Rect) : List ℚ × List ℚ × List ℚ × List ℚ :=
  ps.foldl
    (fun acc r =>
      (acc.1 ++ [pyFloat (r.x + r.width / 2)],
       acc.2.1 ++ [pyFloat r.height],
       acc.2.2.1 ++ [pyFloat r.width],
       acc.2.2.2 ++ [pyFloat r.y]))
    ([], [], [], [])

/-- The bar branch of the extractor's loop: one `_BarSeries` built from a
`BarContainer`; `width` and `bottom` fall back to `None` when their
accumulated lists are empty (Python's `widths if widths else None`). -/
def extractBar (c : BarContainer) : Series :=
  let acc := barAccum c.patches
  Series.bar (_clean_label (containerLabelRaw c)) acc.1 acc.2.1
    (if acc.2.2.1.isEmpty then none else some acc.2.2.1)
    (if acc.2.2.2.isEmpty then none else some acc.2.2.2)

/-- The `series` accumulator after the three inner loops of one axes
iteration: lines first, then the path collections, then the bar
containers, each appended in the axes' own order. -/
def seriesLoop (ax : MplAxes) : List Series :=
  let s₁ := ax.lines.foldl (fun acc l => acc ++ [extractLine l]) []
  let s₂ := ax.collections.foldl
    (fun acc c => if isPathCollection c then acc ++ [extractScatter c] else acc) s₁
  ax.containers.foldl
    (fun acc c => if isBarContainer c then acc ++ [extractBar c] else acc) s₂

/-- The per-axes record appended at the end of one axes iteration. -/
def axRecord (i : Nat) (ax : MplAxes) : AxesPlotData :=
  { index := i
    title := ax.title
    xlabel := ax.xlabel
    ylabel := ax.ylabel
    series := seriesLoop ax }

/-- Embedding of `extract_plot_data_points`: the outer loop over
`enumerate(fig.get_axes())`, appending one record per axes. -/
def extract_plot_data_points (f : MplFigure) : FigurePlotData :=
  { axes := f.axes.enum.foldl (fun acc p => acc ++ [axRecord p.1 p.2]) [] }

/-!
Characterizations of the loops as declarative map / filter expressions.
-/

theorem foldl_append_map {α β : Type} (g : α → β) (l : List α) (init : List β) :
    l.foldl (fun acc a => acc ++ [g a]) init = init ++ l.map g := by
  induction l generalizing init with
  | nil => simp
  | cons a t ih => simp [List.foldl_cons, ih]

theorem foldl_filter_map {α β : Type} (p : α → Bool) (g : α → β) (l : List α)
    (init : List β) :
    l.foldl (fun acc a => if p a then acc ++ [g a] else acc) init
      = init ++ (l.filter p).map g := by
  induction l generalizing init with
  | nil => simp
  | cons a t ih =>
    by_cases h : p a
    · simp [List.foldl_cons, h, ih, List.filter_cons]
    · simp [List.foldl_cons, h, ih, List.filter_cons]

theorem seriesLoop_eq (ax : MplAxes) :
    seriesLoop ax
      = ax.lines.map extractLine
        ++ (ax.collections.filter isPathCollection).map extractScatter
        ++ (ax.containers.filter isBarContainer).map extractBar := by
  simp only [seriesLoop]
  rw [foldl_append_map, foldl_filter_map, foldl_filter_map]
  simp

theorem barAccum_eq (ps : List Rect) :
    barAccum ps
      = (ps.map (fun r => pyFloat (r.x + r.width / 2)),
         ps.map (fun r => pyFloat r.height),
         ps.map (fun r => pyFloat r.width),
         ps.map (fun r => pyFloat r.y)) := by
  suffices h : ∀ (a b c d : List ℚ),
      ps.foldl
        (fun acc r =>
          (acc.1 ++ [pyFloat (r.x + r.width / 2)],
           acc.2.1 ++ [pyFloat r.height],
           acc.2.2.1 ++ [pyFloat r.width],
           acc.2.2.2 ++ [pyFloat r.y]))
        (a, b, c, d)
      = (a ++ ps.map (fun r => pyFloat (r.x + r.width / 2)),
         b ++ ps.map (fun r => pyFloat r.height),
         c ++ ps.map (fun r => pyFloat r.width),
         d ++ ps.map (fun r => pyFloat r.y)) by
    simpa using h [] [] [] []
  induction ps with
  | nil => simp
  | cons r t ih => intro a b c d; simp [List.foldl_cons, ih]

theorem extract_axes_eq (f : MplFigure) :
    (extract_plot_data_points f).axes
      = f.axes.enum.map (fun p => axRecord p.1 p.2) := by
  simp only [extract_plot_data_points]
  exact (foldl_append_map (fun p : ℕ × MplAxes => axRecord p.1 p.2)
    f.axes.enum []).trans (by simp)

theorem snd_mem_of_mem_enum {α : Type} {p : ℕ × α} {l : List α}
    (h : p ∈ l.enum) : p.2 ∈ l := by
  rw [List.enum_eq_zip_range] at h
  exact (List.of_mem_zip h).2

/-!
Instrumented semantics for the extractor: every operation the Python body
performs against the outside world, in program order, tagged as an
attribute/property read (`read`), an attribute write (`write`) or an I/O
operation (`sys`).  The body of `extract_plot_data_points` only ever calls
getter accessors, so the recorded trace holds reads only; the trace is the
evidence for the no-mutation / no-I/O part of the purity claim.
-/

/-- One externally visible operation of a run of the extractor. -/
inductive Effect where
  | read (attr : String)
  | write (attr : String)
  | sys (op : String)
deriving Repr, DecidableEq

/-- Whether an effect is a read (as opposed to a mutation or I/O). -/
def Effect.isRead : Effect → Bool
  | Effect.read _ => true
  | _ => false

/-- The operations of one line iteration: `line.get_xdata()`,
`line.get_ydata()`, `line.get_label()`. -/
def lineEffects (_l : Line2D) : List Effect :=
  [Effect.read "get_xdata", Effect.read "get_ydata", Effect.read "get_label"]

/-- The operations of one collection iteration: the `type(col)` inspection
by `_is_matplotlib_type`, then — only for a path collection —
`col.get_offsets()`, `col.get_sizes()` when the accessor exists, and the
`getattr(col, "get_label", ...)` probe. -/
def collectionEffects (c : Collection) : List Effect :=
  [Effect.read "type"]
    ++ (if isPathCollection c then
          [Effect.read "get_offsets"]
            ++ (if c.hasGetSizes then [Effect.read "get_sizes"] else [])
            ++ [Effect.read "get_label"]
        else [])

/-- The operations of one patch iteration of the bar loop, in evaluation
order of the four `append` calls. -/
def rectEffects (_r : Rect) : List Effect :=
  [Effect.read "get_x", Effect.read "get_width", Effect.read "get_height",
   Effect.read "get_width", Effect.read "get_y"]

/-- The operations of one container iteration: the type inspection, then —
only for a bar container — the patch reads and the label probe. -/
def containerEffects (c : BarContainer) : List Effect :=
  [Effect.read "type"]
    ++ (if isBarContainer c then
          (c.patches.map rectEffects).flatten ++ [Effect.read "get_label"]
        else [])

/-- The operations of one axes iteration: `ax.get_lines()`, the line
iterations, the `ax.collections` probe, the collection iterations, the
`ax.containers` probe, the container iterations, then the three label
reads of the record constructor. -/
def axesEffects (ax : MplAxes) : List Effect :=
  [Effect.read "get_lines"] ++ (ax.lines.map lineEffects).flatten
    ++ [Effect.read "collections"] ++ (ax.collections.map collectionEffects).flatten
    ++ [Effect.read "containers"] ++ (ax.containers.map containerEffects).flatten
    ++ [Effect.read "get_title", Effect.read "get_xlabel", Effect.read "get_ylabel"]

/-- The operations of a whole run: `fig.get_axes()` then the axes
iterations. -/
def figureEffects (f : MplFigure) : List Effect :=
  [Effect.read "get_axes"] ++ (f.axes.map axesEffects).flatten

/-- One run of `extract_plot_data_points` together with its trace of
external operations. -/
def extract_plot_data_points_run (f : MplFigure) :
    FigurePlotData × List Effect :=
  (extract_plot_data_points f, figureEffects f)

/-- Two successive runs of the extractor on the same figure: since the
first run's trace holds no write and no I/O, the second call observes the
same figure state and the two snapshots are the two components. -/
def extractTwice (f : MplFigure) : FigurePlotData × FigurePlotData :=
  ((extract_plot_data_points_run f).1, (extract_plot_data_points_run f).1)

theorem lineEffects_reads (l : Line2D) :
    ∀ e ∈ lineEffects l, e.isRead = true := by
  simp [lineEffects, Effect.isRead]

theorem collectionEffects_reads (c : Collection) :
    ∀ e ∈ collectionEffects c, e.isRead = true := by
  intro e he
  simp only [collectionEffects, List.mem_append, List.mem_cons,
    List.not_mem_nil, or_false, List.mem_singleton] at he
  rcases he with h | h
  · rw [h]; rfl
  · by_cases hp : isPathCollection c
    · simp only [hp, if_pos] at h
      rcases List.mem_append.mp h with h' | h'
      · rcases List.mem_append.mp h' with h'' | h''
        · simp only [List.mem_singleton] at h''
          rw [h'']; rfl
        · by_cases hs : c.hasGetSizes
          · simp only [hs, if_pos, List.mem_singleton] at h''
            rw [h'']; rfl
          · simp [hs] at h''
      · simp only [List.mem_singleton] at h'
        rw [h']; rfl
    · simp [hp] at h

theorem rectEffects_reads (r : Rect) :
    ∀ e ∈ rectEffects r, e.isRead = true := by
  simp [rectEffects, Effect.isRead]

theorem containerEffects_reads (c : BarContainer) :
    ∀ e ∈ containerEffects c, e.isRead = true := by
  intro e he
  simp only [containerEffects, List.mem_append, List.mem_cons,
    List.not_mem_nil, or_false, List.mem_singleton] at he
  rcases he with h | h
  · rw [h]; rfl
  · by_cases hb : isBarContainer c
    · simp only [hb, if_pos] at h
      rcases List.mem_append.mp h with h' | h'
      · rcases List.mem_flatten.mp h' with ⟨l, hl, hel⟩
        rcases List.mem_map.mp hl with ⟨r, -, rfl⟩
        exact rectEffects_reads r e hel
      · simp only [List.mem_singleton] at h'
        rw [h']; rfl
    · simp [hb] at h

theorem axesEffects_reads (ax : MplAxes) :
    ∀ e ∈ axesEffects ax, e.isRead = true := by
  intro e he
  simp only [axesEffects, List.mem_append] at he
  rcases he with ((((((h | h) | h) | h) | h) | h) | h)
  · simp only [List.mem_singleton] at h; rw [h]; rfl
  · rcases List.mem_flatten.mp h with ⟨l, hl, hel⟩
    rcases List.mem_map.mp hl with ⟨x, -, rfl⟩
    exact lineEffects_reads x e hel
  · simp only [List.mem_singleton] at h; rw [h]; rfl
  · rcases List.mem_flatten.mp h with ⟨l, hl, hel⟩
    rcases List.mem_map.mp hl with ⟨x, -, rfl⟩
    exact collectionEffects_reads x e hel
  · simp only [List.mem_singleton] at h; rw [h]; rfl
  · rcases List.mem_flatten.mp h with ⟨l, hl, hel⟩
    rcases List.mem_map.mp hl with ⟨x, -, rfl⟩
    exact containerEffects_reads x e hel
  · simp only [List.mem_cons, List.not_mem_nil, or_false] at h
    rcases h with h | h | h <;> (rw [h]; rfl)

theorem figureEffects_reads (f : MplFigure) :
    ∀ e ∈ figureEffects f, e.isRead = true := by
  intro e he
  simp only [figureEffects, List.mem_append, List.mem_singleton] at he
  rcases he with h | h
  · rw [h]; rfl
  · rcases List.mem_flatten.mp h with ⟨l, hl, hel⟩
    rcases List.mem_map.mp hl with ⟨x, -, rfl⟩
    exact axesEffects_reads x e hel

/-!
Model of `matplotlib_helper.load_figure_pickle`: after unpickling, the
function re-registers the figure with pyplot's `_pylab_helpers.Gcf`
registry on a best-effort basis.  The registry, the manager a
`plt.figure(num=...)` call installs, and the two guarded mutations
(`fig.set_canvas(canvas)` and `fig.number = ...`, both wrapped in
`try: ... except Exception: pass`) are modelled explicitly, with flags for
every failure mode the code tolerates.
-/

/-- The Python value of a figure's `number` attribute: an `int` (accepted
by the `isinstance(..., int)` check) or some other object. -/
inductive PyNum where
  | int (n : Int)
  | nonint
deriving Repr, DecidableEq

/-- An unpickled figure as the loader sees it: an object identity (`oid`,
preserved by in-place attribute mutation), the optional `number`
attribute, whether `set_canvas` exists, and whether a canvas has been
attached to the object. -/
structure MplFig where
  oid : Nat
  number : Option PyNum
  hasSetCanvas : Bool
  canvasAttached : Bool
deriving Repr, DecidableEq

/-- A figure manager of the `Gcf` registry: whether
`getattr(manager, "canvas", None)` is not `None`, and the optional `num`
attribute read by `getattr(manager, "num", target_num)`. -/
structure Manager where
  canvasPresent : Bool
  num : Option Int
deriving Repr, DecidableEq

/-- The environment of one load call: the `Gcf` registry before the call,
the registry's answer for a number after `plt.figure(num=...)` created a
manager for it, and whether each of the two guarded mutations raises. -/
structure LoadEnv where
  registry : Int → Option Manager
  afterFigure : Int → Option Manager
  setCanvasFails : Bool
  setNumberFails : Bool

/-- The result of a load: the returned figure object (same identity as the
unpickled one, attributes possibly updated in place) and whether
`Gcf.set_active(manager)` ran. -/
structure LoadResult where
  fig : MplFig
  activated : Bool
deriving Repr, DecidableEq

namespace MatplotlibHelper

/-- Embedding of `matplotlib_helper.save_figure_pickle`; the function is
textually identical to `matplotlib_pickle.save_figure_pickle`. -/
def save_figure_pickle {α : Type} (home : PyPath) (fig : α) (path : PyPath)
    (protocol : Option Nat) (mkdir : Bool) (fs : FileSystem α) :
    PyPath × FileSystem α :=
  let out_path := expanduser home path
  let prot := protocol.getD pickle_HIGHEST_PROTOCOL
  let _ := mkdir
  (out_path, fun q => if q = out_path then some ⟨prot, fig⟩ else fs q)

/-- The best-effort re-registration step of
`matplotlib_helper.load_figure_pickle`, run on the unpickled figure:
compute `target_num` from the figure's `number` attribute (0 unless it
exists and is an `int`); look the manager up in `Gcf`, creating one via
`plt.figure(num=target_num)` when missing; if a manager with a canvas
exists, point the canvas at the figure, call `fig.set_canvas(canvas)` and
assign `fig.number` (each swallowed on failure, modelling the
`try ... except Exception: pass` blocks), and make the manager active.
Total: every tolerated failure leaves the figure unchanged.  Split into
the four steps of the source, starting with the `target_num`
computation (0 unless the `number` attribute exists and is an `int`). -/
def targetNum (fig : MplFig) : Int :=
  match fig.number with
  | some (PyNum.int n) => n
  | _ => 0

/-- The manager lookup: `Gcf.get_fig_manager(target_num)`, falling back to
the manager `plt.figure(num=target_num)` installs when the registry knows
none. -/
def lookupManager (env : LoadEnv) (t : Int) : Option Manager :=
  match env.registry t with
  | some m => some m
  | none => env.afterFigure t

/-- The guarded `fig.set_canvas(canvas)` call: skipped when the accessor
does not exist, swallowed when it raises. -/
def attachCanvas (env : LoadEnv) (fig : MplFig) : MplFig :=
  if fig.hasSetCanvas then
    if env.setCanvasFails then fig
    else { fig with canvasAttached := true }
  else fig

/-- The guarded `fig.number = getattr(manager, "num", target_num)`
assignment: skipped when the attribute does not exist, swallowed when the
assignment raises. -/
def assignNumber (env : LoadEnv) (m : Manager) (t : Int) (fig : MplFig) :
    MplFig :=
  if fig.number.isSome then
    if env.setNumberFails then fig
    else { fig with number := some (PyNum.int (m.num.getD t)) }
  else fig

/-- The whole re-registration step, composing the pieces in source
order. -/
def reregister (env : LoadEnv) (fig : MplFig) : LoadResult :=
  match lookupManager env (targetNum fig) with
  | none => { fig := fig, activated := false }
  | some m =>
    if m.canvasPresent then
      { fig := assignNumber env m (targetNum fig) (attachCanvas env fig)
        activated := true }
    else
      { fig := fig, activated := false }

/-- Embedding of `matplotlib_helper.load_figure_pickle` proper: unpickle
the file at the expanded path, run the advisory re-registration step on
the unpickled object, and return that object; `none` models the `IOError`
raised for a missing file. -/
def load_figure_pickle (env : LoadEnv) (home : PyPath)
    (fs : FileSystem MplFig) (path : PyPath) : Option LoadResult :=
  match (fs (expanduser home path)).map PickledFile.payload with
  | none => none
  | some fig => some (reregister env fig)

end MatplotlibHelper

/-!
Claim theorems.
-/

/-- C1: Round-trip — for every serializable figure-like object `F` and
every writable path `p`, `load_figure_pickle (save_figure_pickle F p)`
returns an object graph equal to `F` (full equality of the modelled
object, which subsumes deep-equality of all plotted data and labels).
The home directory itself not starting with `~` makes `expanduser`
idempotent, so the expanded path returned by save reads back the same
file. -/
theorem C1_pickle_roundtrip {α : Type} (home : PyPath)
    (hh : home.head? ≠ some '~') (F : α) (p : PyPath) (protocol : Option Nat)
    (mkdir : Bool) (fs : FileSystem α) :
    MatplotlibPickle.load_figure_pickle home
        (MatplotlibPickle.save_figure_pickle home F p protocol mkdir fs).2
        (MatplotlibPickle.save_figure_pickle home F p protocol mkdir fs).1
      = some F := by
  simp only [MatplotlibPickle.save_figure_pickle,
    MatplotlibPickle.load_figure_pickle]
  rw [expanduser_idem home p hh]
  simp

/-- Witness for C1 at a concrete object, path and filesystem. -/
theorem C1_pickle_roundtrip_witness :
    MatplotlibPickle.load_figure_pickle ['h']
        (MatplotlibPickle.save_figure_pickle ['h'] (7 : Nat) ['~', '/', 'a']
          none true (fun _ => none)).2
        (MatplotlibPickle.save_figure_pickle ['h'] (7 : Nat) ['~', '/', 'a']
          none true (fun _ => none)).1
      = some 7 :=
  C1_pickle_roundtrip ['h'] (by decide) 7 ['~', '/', 'a'] none true
    (fun _ => none)

/-- Sizes consistency of a collection as the extractor reads it: when the
`sizes_raw` value is not `None`, it holds one size per offset. -/
def collectionSizesOk (c : Collection) : Bool :=
  match collectionSizesRaw c with
  | none => true
  | some vs => vs.length == c.offsets.length

/-- Parallel-array consistency of one extracted series, as the
parallel-array claim states it: lines have `len(x) == len(y)`; scatter
series with non-null sizes have `len(sizes) == len(xy)`; bar series have
`len(height) == len(x)` and `width` / `bottom` each `None` exactly when
`x` is empty (the container owns zero patches) and otherwise of the same
length as `x`. -/
def seriesArraysOk : Series → Prop
  | Series.line _ x y => x.length = y.length
  | Series.scatter _ xy sizes =>
      match sizes with
      | none => True
      | some vs => vs.length = xy.length
  | Series.bar _ x height width bottom =>
      height.length = x.length
      ∧ (match width with
         | none => x = []
         | some ws => x ≠ [] ∧ ws.length = x.length)
      ∧ (match bottom with
         | none => x = []
         | some bs => x ≠ [] ∧ bs.length = x.length)

/-- C2: Parallel-array consistency — in every snapshot, every line series
has `len(x) == len(y)` (given equal-length line data), every scatter
series with non-null sizes has `len(sizes) == len(xy)` (given sizes
matching offsets), and every bar series has `len(height) == len(x)` with
`width` / `bottom` each `None` exactly when the container owns zero
patches and otherwise length-matching `x`. -/
theorem C2_parallel_arrays (f : MplFigure)
    (hline : ∀ ax ∈ f.axes, ∀ l ∈ ax.lines,
      optDataLen l.xdata = optDataLen l.ydata)
    (hsizes : ∀ ax ∈ f.axes, ∀ c ∈ ax.collections,
      collectionSizesOk c = true) :
    (extract_plot_data_points f).axes.Forall
      (fun rec => rec.series.Forall seriesArraysOk) := by
  rw [List.forall_iff_forall_mem]
  intro rec hrec
  rw [List.forall_iff_forall_mem]
  intro s hs
  rw [extract_axes_eq] at hrec
  rcases List.mem_map.mp hrec with ⟨p, hp, rfl⟩
  have hax : p.2 ∈ f.axes := snd_mem_of_mem_enum hp
  simp only [axRecord] at hs
  rw [seriesLoop_eq] at hs
  rcases List.mem_append.mp hs with h | h
  · rcases List.mem_append.mp h with h' | h'
    · rcases List.mem_map.mp h' with ⟨l, hl, rfl⟩
      have hlen := hline p.2 hax l hl
      simp [extractLine, seriesArraysOk, to_float_list_length, hlen]
    · rcases List.mem_map.mp h' with ⟨c, hc, rfl⟩
      have hc' : c ∈ p.2.collections := List.mem_of_mem_filter hc
      have hok := hsizes p.2 hax c hc'
      cases hsr : collectionSizesRaw c with
      | none => simp [extractScatter, seriesArraysOk, scatterSizes, hsr]
      | some vs =>
        simp only [collectionSizesOk, hsr, beq_iff_eq] at hok
        simp [extractScatter, seriesArraysOk, scatterSizes, hsr,
          _to_float_list, hok]
  · rcases List.mem_map.mp h with ⟨c, hc, rfl⟩
    cases hps : c.patches with
    | nil => simp [extractBar, seriesArraysOk, barAccum_eq, hps]
    | cons r t => simp [extractBar, seriesArraysOk, barAccum_eq, hps]

/-- Witness for C2: a concrete figure with a line, a path collection with
sizes, a non-path collection (skipped), a bar container with two patches
and a non-bar container (skipped). -/
theorem C2_parallel_arrays_witness :
    (extract_plot_data_points
      { axes := [{ lines := [{ xdata := some [1, 2, 3],
                               ydata := some [1, 4, 9],
                               label := some "myline" }]
                   collections := [{ typeName := "PathCollection"
                                     typeModule := "matplotlib.collections"
                                     offsets := [(0, 1), (1, 2)]
                                     hasGetSizes := true
                                     sizesVal := some [10, 20]
                                     hasGetLabel := true
                                     labelVal := some "_child1" },
                                   { typeName := "LineCollection"
                                     typeModule := "matplotlib.collections"
                                     offsets := []
                                     hasGetSizes := false
                                     sizesVal := none
                                     hasGetLabel := true
                                     labelVal := some "seg" }]
                   containers := [{ typeName := "BarContainer"
                                    typeModule := "matplotlib.container"
                                    patches := [{ x := 1, y := 0, width := 2, height := 5 },
                                                { x := 4, y := 0, width := 2, height := 6 }]
                                    hasGetLabel := false
                                    labelVal := none }]
                   title := "t", xlabel := "xs", ylabel := "ys" }] }).axes.Forall
      (fun rec => rec.series.Forall seriesArraysOk) :=
  C2_parallel_arrays _ (by decide) (by decide)

theorem clean_label_no_placeholder (o : Option String) (lab : String)
    (h : _clean_label o = some lab) : lab.startsWith "_" = false := by
  cases o with
  | none => simp [_clean_label] at h
  | some s =>
    simp only [_clean_label] at h
    cases hb : String.startsWith s "_" with
    | true => rw [hb] at h; simp at h
    | false =>
      rw [hb] at h
      simp at h
      subst h
      exact hb

theorem seriesLoop_label (ax : MplAxes) (s : Series) (hs : s ∈ seriesLoop ax) :
    ∃ o, s.labelOf = _clean_label o := by
  rw [seriesLoop_eq] at hs
  rcases List.mem_append.mp hs with h | h
  · rcases List.mem_append.mp h with h' | h'
    · rcases List.mem_map.mp h' with ⟨l, -, rfl⟩
      exact ⟨l.label, rfl⟩
    · rcases List.mem_map.mp h' with ⟨c, -, rfl⟩
      exact ⟨collectionLabelRaw c, rfl⟩
  · rcases List.mem_map.mp h with ⟨c, -, rfl⟩
    exact ⟨containerLabelRaw c, rfl⟩

/-- C3: Label normalization — every emitted label is the result of
`_clean_label`, so no label of any series in any snapshot starts with an
underscore; `_clean_label` sends `None` to `None` and otherwise passes the
label through verbatim unless it starts with an underscore, in which case
it is normalized to `None`. -/
theorem C3_label_normalization (f : MplFigure) :
    ((extract_plot_data_points f).axes.Forall
      (fun rec => rec.series.Forall
        (fun s => ∀ lab, s.labelOf = some lab → lab.startsWith "_" = false)))
    ∧ _clean_label none = none
    ∧ (∀ lab : String,
        _clean_label (some lab)
          = if lab.startsWith "_" then none else some lab) := by
  refine ⟨?_, rfl, fun lab => rfl⟩
  rw [List.forall_iff_forall_mem]
  intro rec hrec
  rw [List.forall_iff_forall_mem]
  intro s hs lab hlab
  rw [extract_axes_eq] at hrec
  rcases List.mem_map.mp hrec with ⟨p, hp, rfl⟩
  simp only [axRecord] at hs
  rcases seriesLoop_label p.2 s hs with ⟨o, ho⟩
  refine clean_label_no_placeholder o lab ?_
  rw [← ho]
  exact hlab

/-- C4: Scatter sizes normalization — a collection with no `get_sizes`
accessor and one whose accessor returns `None` get the same `sizes` value
(`None`, which `_to_float_list` coerces to the empty list), while a
collection whose accessor returns an actually-empty sequence gets
`some []`, not `None`. -/
theorem C4_scatter_sizes (c₁ c₂ c₃ : Collection)
    (h₁ : c₁.hasGetSizes = false)
    (h₂a : c₂.hasGetSizes = true) (h₂b : c₂.sizesVal = none)
    (h₃a : c₃.hasGetSizes = true) (h₃b : c₃.sizesVal = some []) :
    scatterSizes c₁ = none
    ∧ scatterSizes c₂ = none
    ∧ scatterSizes c₁ = scatterSizes c₂
    ∧ _to_float_list (collectionSizesRaw c₁) = []
    ∧ _to_float_list (collectionSizesRaw c₂) = []
    ∧ scatterSizes c₃ = some [] := by
  simp [scatterSizes, collectionSizesRaw, h₁, h₂a, h₂b, h₃a, h₃b,
    _to_float_list]

/-- A path collection with no `get_sizes` accessor. -/
def collectionNoSizesAccessor : Collection :=
  { typeName := "PathCollection", typeModule := "matplotlib.collections"
    offsets := [(1, 2)], hasGetSizes := false, sizesVal := none
    hasGetLabel := true, labelVal := some "a" }

/-- A path collection whose `get_sizes` accessor returns `None`. -/
def collectionNullSizes : Collection :=
  { typeName := "PathCollection", typeModule := "matplotlib.collections"
    offsets := [(1, 2)], hasGetSizes := true, sizesVal := none
    hasGetLabel := true, labelVal := some "a" }

/-- A path collection whose `get_sizes` accessor returns an empty
sequence. -/
def collectionEmptySizes : Collection :=
  { typeName := "PathCollection", typeModule := "matplotlib.collections"
    offsets := [(1, 2)], hasGetSizes := true, sizesVal := some []
    hasGetLabel := true, labelVal := some "a" }

/-- Witness for C4 at three concrete collections. -/
theorem C4_scatter_sizes_witness :
    scatterSizes collectionNoSizesAccessor = none
    ∧ scatterSizes collectionNullSizes = none
    ∧ scatterSizes collectionNoSizesAccessor = scatterSizes collectionNullSizes
    ∧ _to_float_list (collectionSizesRaw collectionNoSizesAccessor) = []
    ∧ _to_float_list (collectionSizesRaw collectionNullSizes) = []
    ∧ scatterSizes collectionEmptySizes = some [] :=
  C4_scatter_sizes collectionNoSizesAccessor collectionNullSizes
    collectionEmptySizes rfl rfl rfl rfl rfl

/-- C5: Traversal order — the snapshot holds exactly one record per axes
in the figure's axes order, whose `index` fields are `0, 1, 2, ...` in
enumeration order, and each record's series list is all line series in
artist order, then the path-collection scatter series (other collection
kinds filtered out by `_is_matplotlib_type`'s type name / module check),
then the bar-container series. -/
theorem C5_traversal_order (f : MplFigure) :
    (extract_plot_data_points f).axes
      = f.axes.enum.map (fun p =>
          { index := p.1
            title := p.2.title
            xlabel := p.2.xlabel
            ylabel := p.2.ylabel
            series := p.2.lines.map extractLine
              ++ (p.2.collections.filter isPathCollection).map extractScatter
              ++ (p.2.containers.filter isBarContainer).map extractBar })
    ∧ (extract_plot_data_points f).axes.map AxesPlotData.index
        = List.range f.axes.length := by
  have hfun : (fun p : ℕ × MplAxes => axRecord p.1 p.2)
      = (fun p : ℕ × MplAxes =>
          { index := p.1
            title := p.2.title
            xlabel := p.2.xlabel
            ylabel := p.2.ylabel
            series := p.2.lines.map extractLine
              ++ (p.2.collections.filter isPathCollection).map extractScatter
              ++ (p.2.containers.filter isBarContainer).map extractBar }) := by
    funext p
    simp [axRecord, seriesLoop_eq]
  constructor
  · rw [extract_axes_eq, hfun]
  · rw [extract_axes_eq, List.map_map]
    have hcomp : (AxesPlotData.index ∘ fun p : ℕ × MplAxes => axRecord p.1 p.2)
        = Prod.fst := rfl
    rw [hcomp, List.enum_map_fst]

/-- C6: Bar geometry — for every bar container, the extracted bar series
has, for each patch in order, x entry `patch.x + patch.width / 2`, height
entry `patch.height`, width entry `patch.width` and bottom entry
`patch.y`, each coerced with `float`; `width` and `bottom` collapse to
`None` exactly for an empty patch list. -/
theorem C6_bar_geometry (c : BarContainer) :
    extractBar c
      = Series.bar (_clean_label (containerLabelRaw c))
          (c.patches.map (fun r => pyFloat (r.x + r.width / 2)))
          (c.patches.map (fun r => pyFloat r.height))
          (if c.patches.isEmpty then none
           else some (c.patches.map (fun r => pyFloat r.width)))
          (if c.patches.isEmpty then none
           else some (c.patches.map (fun r => pyFloat r.y))) := by
  cases hps : c.patches with
  | nil => simp [extractBar, barAccum_eq, hps]
  | cons r t => simp [extractBar, barAccum_eq, hps]

theorem attachCanvas_oid (env : LoadEnv) (fig : MplFig) :
    (MatplotlibHelper.attachCanvas env fig).oid = fig.oid := by
  unfold MatplotlibHelper.attachCanvas
  split_ifs <;> rfl

theorem assignNumber_oid (env : LoadEnv) (m : Manager) (t : Int)
    (fig : MplFig) :
    (MatplotlibHelper.assignNumber env m t fig).oid = fig.oid := by
  unfold MatplotlibHelper.assignNumber
  split_ifs <;> rfl

theorem reregister_oid (env : LoadEnv) (fig : MplFig) :
    (MatplotlibHelper.reregister env fig).fig.oid = fig.oid := by
  unfold MatplotlibHelper.reregister
  split
  · rfl
  · rename_i m _
    split_ifs
    · rw [assignNumber_oid, attachCanvas_oid]
    · rfl

/-- C7: Best-effort re-registration on load — for every environment
configuration, including every failure mode the code tolerates (no
manager before or after `plt.figure`, manager without canvas, raising
`set_canvas`, raising `number` assignment), the helper's
`load_figure_pickle` succeeds and returns the object deserialized from
the file (the same object identity). -/
theorem C7_load_swallows_failures (env : LoadEnv) (home path : PyPath)
    (fs : FileSystem MplFig) (fig : MplFig)
    (h : (fs (expanduser home path)).map PickledFile.payload = some fig) :
    ∃ r : LoadResult,
      MatplotlibHelper.load_figure_pickle env home fs path = some r
        ∧ r.fig.oid = fig.oid := by
  refine ⟨MatplotlibHelper.reregister env fig, ?_, reregister_oid env fig⟩
  unfold MatplotlibHelper.load_figure_pickle
  rw [h]

/-- An environment in which every tolerated failure fires: `Gcf` knows no
manager, `plt.figure` installs a manager with a canvas, and both guarded
mutations raise. -/
def loadEnvAllFail : LoadEnv :=
  { registry := fun _ => none
    afterFigure := fun _ => some { canvasPresent := true, num := none }
    setCanvasFails := true
    setNumberFails := true }

/-- A concrete unpickled figure. -/
def figSeven : MplFig :=
  { oid := 42, number := some (PyNum.int 3), hasSetCanvas := true
    canvasAttached := false }

/-- A filesystem holding `figSeven` pickled at path `a`. -/
def fsSeven : FileSystem MplFig :=
  fun q => if q = ['a'] then some ⟨5, figSeven⟩ else none

/-- Witness for C7: the all-failures environment at a concrete file. -/
theorem C7_load_swallows_failures_witness :
    ∃ r : LoadResult,
      MatplotlibHelper.load_figure_pickle loadEnvAllFail ['h'] fsSeven ['a']
          = some r
        ∧ r.fig.oid = figSeven.oid :=
  C7_load_swallows_failures loadEnvAllFail ['h'] ['a'] fsSeven figSeven rfl

/-- C8: Extraction determinism and purity — the instrumented run of the
extractor records only read effects (no attribute write, no I/O), its
snapshot is exactly `extract_plot_data_points f`, and two successive
calls on the same unmodified figure yield identical snapshots. -/
theorem C8_extract_pure (f : MplFigure) :
    ((extract_plot_data_points_run f).2.Forall (fun e => e.isRead = true))
    ∧ (extract_plot_data_points_run f).1 = extract_plot_data_points f
    ∧ (extractTwice f).1 = (extractTwice f).2 := by
  refine ⟨?_, rfl, rfl⟩
  rw [List.forall_iff_forall_mem]
  exact figureEffects_reads f

/-- C9: Path expansion — both modules' `save_figure_pickle` return the
`~`-expanded path, write exactly at it and leave every other path alone;
both load variants read at the expanded path; and the returned path can
differ from the path argument (concrete last conjunct). -/
theorem C9_expanduser_everywhere (α : Type) (home p : PyPath) (fig : α)
    (protocol : Option Nat) (mkdir : Bool) (fs : FileSystem α)
    (env : LoadEnv) (fsh : FileSystem MplFig) :
    (MatplotlibPickle.save_figure_pickle home fig p protocol mkdir fs).1
        = expanduser home p
    ∧ (MatplotlibHelper.save_figure_pickle home fig p protocol mkdir fs).1
        = expanduser home p
    ∧ (MatplotlibPickle.save_figure_pickle home fig p protocol mkdir fs).2
        (expanduser home p)
        = some ⟨protocol.getD pickle_HIGHEST_PROTOCOL, fig⟩
    ∧ (∀ q, q ≠ expanduser home p →
        (MatplotlibPickle.save_figure_pickle home fig p protocol mkdir fs).2 q
          = fs q)
    ∧ MatplotlibPickle.load_figure_pickle home fs p
        = (fs (expanduser home p)).map PickledFile.payload
    ∧ (MatplotlibHelper.load_figure_pickle env home fsh p).isSome
        = (fsh (expanduser home p)).isSome
    ∧ expanduser ['/', 'h'] ['~', '/', 'f'] ≠ ['~', '/', 'f'] := by
  refine ⟨rfl, rfl, ?_, ?_, rfl, ?_, by decide⟩
  · simp [MatplotlibPickle.save_figure_pickle]
  · intro q hq
    simp [MatplotlibPickle.save_figure_pickle, hq]
  · cases hv : fsh (expanduser home p) with
    | none => simp [MatplotlibHelper.load_figure_pickle, hv]
    | some v => simp [MatplotlibHelper.load_figure_pickle, hv]

/-- C10: Missing label accessors — a path collection or a bar container
without a `get_label` accessor yields a series whose label is `None` (the
code reads the label through `getattr(obj, "get_label", lambda: None)`),
not an attribute error. -/
theorem C10_missing_label_accessor (c : Collection) (b : BarContainer)
    (hc : c.hasGetLabel = false) (hb : b.hasGetLabel = false) :
    (extractScatter c).labelOf = none ∧ (extractBar b).labelOf = none := by
  constructor
  · simp [extractScatter, Series.labelOf, collectionLabelRaw, hc, _clean_label]
  · simp [extractBar, Series.labelOf, containerLabelRaw, hb, _clean_label]

/-- A path collection without a `get_label` accessor. -/
def collectionNoLabelAccessor : Collection :=
  { typeName := "PathCollection", typeModule := "matplotlib.collections"
    offsets := [(1, 2)], hasGetSizes := true, sizesVal := some [3]
    hasGetLabel := false, labelVal := none }

/-- A bar container without a `get_label` accessor. -/
def containerNoLabelAccessor : BarContainer :=
  { typeName := "BarContainer", typeModule := "matplotlib.container"
    patches := [{ x := 1, y := 0, width := 2, height := 5 }]
    hasGetLabel := false, labelVal := none }

/-- Witness for C10 at a concrete collection and container. -/
theorem C10_missing_label_accessor_witness :
    (extractScatter collectionNoLabelAccessor).labelOf = none
    ∧ (extractBar containerNoLabelAccessor).labelOf = none :=
  C10_missing_label_accessor collectionNoLabelAccessor
    containerNoLabelAccessor rfl rfl
